import Mathlib

/-!
Shallow embedding of the TinyUSB MSP430x5xx device-controller driver
(src/src/portable/ti/msp430x5xx/dcd_msp430x5xx.c) and verification of its
specification.  Machine integers are modelled as `Nat` with explicit
`% 2^w` where the C code can overflow or truncate; memory-mapped registers
and the per-endpoint transfer table live in an explicit state record, and
event callbacks to the upper stack are modelled as a list of emitted
events.
-/

namespace Msp430Dcd

/-! Register bit masks and interrupt-vector codes.  These constants come
from the vendor header msp430.h and the TinyUSB common headers, which are
not part of this repository; their concrete values are taken from the
vendor documentation and none of the theorems below depends on the exact
numbers, only on the masks being 16-bit values. -/

def USBKEY : Nat := 0x9628

def UBME : Nat := 0x04

def USBIIE : Nat := 0x08

def BIT0 : Nat := 0x01

def NAK : Nat := 0x80

def FEN : Nat := 0x01

def DIR : Nat := 0x04

def SETUPIE : Nat := 0x10

def SETUPIFG : Nat := 0x10

def VUOVLIE : Nat := 0x200

def VBONIE : Nat := 0x400

def VBOFFIE : Nat := 0x800

def PWRCTL_IE_MASK : Nat := VUOVLIE ||| VBONIE ||| VBOFFIE

def USBVECINT_RSTR : Nat := 0x16

def USBVECINT_SETUP_PACKET_RECEIVED : Nat := 0x20

def USBVECINT_INPUT_ENDPOINT0 : Nat := 0x12

def USBVECINT_OUTPUT_ENDPOINT0 : Nat := 0x14

def XFER_RESULT_SUCCESS : Nat := 0

/-- Clear the bits of an 8-bit register value: models `reg &= ~mask`. -/
def clear8 (v m : Nat) : Nat := v &&& (255 ^^^ m)

/-- Clear the bits of a 16-bit register value: models `reg &= ~mask`. -/
def clear16 (v m : Nat) : Nat := v &&& (65535 ^^^ m)

/-- Per-endpoint, per-direction transfer bookkeeping, `xfer_ctl_t` in the
source.  `buffer` models the borrowed byte pointer as the function from
byte offset to byte value. -/
structure xfer_ctl_t where
  buffer : Nat → Nat
  total_len : Nat
  queued_len : Nat
  max_size : Nat
  short_packet : Bool
  zlp_sent : Bool

/-- The memory-mapped USB registers the driver reads or writes.  `GIE` is
the global-interrupt-enable bit of the status register; `ep0in_buf` is the
dedicated hardware packet buffer USBIEP0BUF and `setup_buf` the dedicated
8-byte SETUP buffer USBSUBLK, both as offset-to-byte functions. -/
structure Hw where
  USBOEPIE : Nat
  USBIEPIE : Nat
  USBIE : Nat
  USBPWRCTL : Nat
  USBCTL : Nat
  USBOEPCNF_0 : Nat
  USBIEPCNF_0 : Nat
  USBOEPCNT_0 : Nat
  USBIEPCNT_0 : Nat
  USBIEPIFG : Nat
  USBIFG : Nat
  USBKEYPID : Nat
  GIE : Bool
  ep0in_buf : Nat → Nat
  setup_buf : Nat → Nat

/-- The driver's whole mutable state: hardware registers, the four
register mirrors, the `in_isr` flag, the transfer table `xfer_status`
(endpoint number, direction with `true` = IN) and the captured
`_setup_packet` bytes.  Caveat: the C table is `xfer_ctl_t
xfer_status[8][2]`; modelling it as a total function widens the index
range, and slots with endpoint number 8 or above correspond to no C
object — a C access there is out of bounds.  Every theorem below that
reads or writes the table does so only at indices 0-7 (in fact only at
endpoint 0). -/
structure DcdState where
  hw : Hw
  usboepie_mirror : Nat
  usbiepie_mirror : Nat
  usbie_mirror : Nat
  usbpwrctl_mirror : Nat
  in_isr : Bool
  xfer_status : Nat → Bool → xfer_ctl_t
  setup_packet : Nat → Nat

/-- Events the driver reports to the upper stack through the dcd_event
callbacks (declared in device/dcd.h, outside this repository). -/
inductive Event where
  | busSignalReset
  | setupReceived (bytes : List Nat)
  | xferComplete (rhport : Nat) (ep : Nat) (len : Nat) (result : Nat)
  deriving DecidableEq

/-- Update one slot of the transfer table. -/
def setXfer (t : Nat → Bool → xfer_ctl_t) (e : Nat) (d : Bool) (x : xfer_ctl_t) :
    Nat → Bool → xfer_ctl_t :=
  fun e2 d2 => if e2 = e ∧ d2 = d then x else t e2 d2

/-- Modelled from the spec: `tu_edpt_number` from the TinyUSB common
header (not in src/) extracts the endpoint number, the low 7 bits of the
endpoint address. -/
def tu_edpt_number (addr : Nat) : Nat := addr &&& 0x7F

/-- Modelled from the spec: `tu_edpt_dir` from the TinyUSB common header
(not in src/) extracts the direction bit 0x80; `true` is IN. -/
def tu_edpt_dir (addr : Nat) : Bool := decide (addr &&& 0x80 ≠ 0)

/-- `bus_reset` (lines 60-88): fix max_size 8 for both directions of
endpoint 0, enable the control endpoint and its interrupts, NAK both
directions, enable packet responses and the SETUP interrupt. -/
def bus_reset (s : DcdState) : DcdState :=
  let t1 := setXfer s.xfer_status 0 false { s.xfer_status 0 false with max_size := 8 }
  let t2 := setXfer t1 0 true { t1 0 true with max_size := 8 }
  { s with
    xfer_status := t2,
    hw := { s.hw with
      USBOEPCNF_0 := s.hw.USBOEPCNF_0 ||| (UBME ||| USBIIE),
      USBIEPCNF_0 := s.hw.USBIEPCNF_0 ||| (UBME ||| USBIIE),
      USBOEPIE := s.hw.USBOEPIE ||| BIT0,
      USBIEPIE := s.hw.USBIEPIE ||| BIT0,
      USBOEPCNT_0 := s.hw.USBOEPCNT_0 ||| NAK,
      USBIEPCNT_0 := s.hw.USBIEPCNT_0 ||| NAK,
      USBCTL := s.hw.USBCTL ||| FEN,
      USBIE := s.hw.USBIE ||| SETUPIE,
      USBKEYPID := 0 } }

/-- `dcd_int_enable` (lines 133-153): clear GIE, restore the four
interrupt-enable registers from the mirrors only when `in_isr` is set,
clear `in_isr`, set GIE. -/
def dcd_int_enable (s : DcdState) : DcdState :=
  let s1 := { s with hw := { s.hw with GIE := false } }
  let s2 :=
    if s1.in_isr then
      { s1 with hw := { s1.hw with
          USBOEPIE := s1.usboepie_mirror,
          USBIEPIE := s1.usbiepie_mirror,
          USBIE := s1.usbie_mirror,
          USBPWRCTL := s1.hw.USBPWRCTL ||| s1.usbpwrctl_mirror } }
    else s1
  { s2 with in_isr := false, hw := { s2.hw with GIE := true } }

/-- `dcd_int_disable` (lines 155-170): clear GIE, snapshot the four
interrupt-enable registers into the mirrors (only the three IE bits of
USBPWRCTL), zero the hardware enables, set `in_isr`, set GIE. -/
def dcd_int_disable (s : DcdState) : DcdState :=
  { s with
    usboepie_mirror := s.hw.USBOEPIE,
    usbiepie_mirror := s.hw.USBIEPIE,
    usbie_mirror := s.hw.USBIE,
    usbpwrctl_mirror := s.hw.USBPWRCTL &&& PWRCTL_IE_MASK,
    in_isr := true,
    hw := { s.hw with
      USBOEPIE := 0,
      USBIEPIE := 0,
      USBIE := 0,
      USBPWRCTL := clear16 s.hw.USBPWRCTL PWRCTL_IE_MASK,
      GIE := true } }

/-- `dcd_edpt_xfer` (lines 208-241): reset the slot's transfer record,
then for endpoint 0 either clear DIR and NAK (OUT) or set DIR and force
the IN interrupt flag (IN).  Returns `true` unconditionally.  Caveat:
`epnum = ep_addr & 0x7F` ranges up to 127 while the C table has 8 rows,
so for endpoint numbers 8-127 the C write `xfer_status[epnum][dir]` is
out of bounds (undefined behavior whose effect depends on the memory
layout of the statics); the total-function write below is a widening on
that range, not the program's behavior, and is relied on by no theorem
in this file. -/
def dcd_edpt_xfer (s : DcdState) (ep_addr : Nat) (buffer : Nat → Nat)
    (total_bytes : Nat) : DcdState × Bool :=
  let epnum := tu_edpt_number ep_addr
  let dir := tu_edpt_dir ep_addr
  let xfer := s.xfer_status epnum dir
  let xfer2 := { xfer with
    buffer := buffer,
    total_len := total_bytes,
    queued_len := 0,
    short_packet := false,
    zlp_sent := false }
  let s1 := { s with xfer_status := setXfer s.xfer_status epnum dir xfer2 }
  let s2 :=
    if epnum = 0 then
      if dir = false then
        { s1 with hw := { s1.hw with
            USBCTL := clear8 s1.hw.USBCTL DIR,
            USBOEPCNT_0 := clear8 s1.hw.USBOEPCNT_0 NAK } }
      else
        { s1 with hw := { s1.hw with
            USBCTL := s1.hw.USBCTL ||| DIR,
            USBIEPIFG := s1.hw.USBIEPIFG ||| BIT0 } }
    else s1
  (s2, true)

/-- `receive_packet` (lines 257-261): empty body. -/
def receive_packet (s : DcdState) (ep_num : Nat) : DcdState × List Event :=
  let _ := ep_num
  (s, [])

/-- `transmit_packet` (lines 263-295), translated literally.  Note the
source computes `xfer_size = (max_size < total_len) ? max_size :
remaining` (line 278), comparing `max_size` against `total_len`, not
against `remaining`; `remaining` is a uint16 subtraction and `xfer_size`
a uint8, hence the explicit `% 65536` and `% 256`. -/
def transmit_packet (s : DcdState) (ep_num : Nat) : DcdState × List Event :=
  let xfer := s.xfer_status ep_num true
  if ep_num = 0 then
    let zlp := xfer.total_len = 0
    if (¬zlp ∧ xfer.total_len = xfer.queued_len) ∨ xfer.zlp_sent = true then
      (s, [Event.xferComplete 0 ep_num xfer.queued_len XFER_RESULT_SUCCESS])
    else
      let base := fun i => xfer.buffer (xfer.queued_len + i)
      let remaining := (xfer.total_len + 65536 - xfer.queued_len) % 65536
      let xfer_size :=
        (if xfer.max_size < xfer.total_len then xfer.max_size else remaining) % 256
      let queued2 := (xfer.queued_len + xfer_size) % 65536
      let zlp_sent2 := if xfer.total_len = 0 then true else xfer.zlp_sent
      let xfer2 := { xfer with queued_len := queued2, zlp_sent := zlp_sent2 }
      let buf2 := fun i => if i < xfer_size then base i else s.hw.ep0in_buf i
      let cnt1 := ((s.hw.USBIEPCNT_0 &&& 0xF0) + xfer_size) % 256
      let cnt2 := clear8 cnt1 NAK
      ({ s with
          hw := { s.hw with ep0in_buf := buf2, USBIEPCNT_0 := cnt2 },
          xfer_status := setXfer s.xfer_status ep_num true xfer2 }, [])
  else
    (s, [])

/-- `handle_setup_packet` (lines 297-307): copy the 8 hardware SETUP
bytes into `_setup_packet` and emit the setup-received event. -/
def handle_setup_packet (s : DcdState) : DcdState × List Event :=
  let sp := fun i => if i < 8 then s.hw.setup_buf i else s.setup_packet i
  ({ s with setup_packet := sp },
   [Event.setupReceived ((List.range 8).map s.hw.setup_buf)])

/-- The SETUP-capture phase at the top of the ISR (lines 313-318): run
`handle_setup_packet` when the SETUPIFG bit of USBIFG is set. -/
def isrSetupPhase (s : DcdState) : DcdState × List Event :=
  if s.hw.USBIFG &&& SETUPIFG ≠ 0 then handle_setup_packet s else (s, [])

/-- Outcome of one ISR invocation: `normal` for a returning run, `halted`
when the default `while(true);` arm is entered, carrying the state and
the events emitted before the loop. -/
inductive IsrResult where
  | normal (s : DcdState) (evs : List Event)
  | halted (s : DcdState) (evs : List Event)

/-- The body of the `while(true);` statement of the default arm (line
342), indexed by the number of loop iterations attempted: it completes
for no iteration count. -/
def whileTrueLoop : Nat → Option Unit
  | 0 => none
  | n + 1 => whileTrueLoop n

/-- `USB_UBM_ISR` (lines 309-346): SETUP capture, then dispatch on the
vector value read from USBVECINT (the read itself, which acknowledges the
vector, is modelled by taking the value as an argument). -/
def USB_UBM_ISR (s : DcdState) (curr_vector : Nat) : IsrResult :=
  let p := isrSetupPhase s
  if curr_vector = USBVECINT_RSTR then
    IsrResult.normal (bus_reset p.1) (p.2 ++ [Event.busSignalReset])
  else if curr_vector = USBVECINT_SETUP_PACKET_RECEIVED then
    IsrResult.normal p.1 p.2
  else if curr_vector = USBVECINT_INPUT_ENDPOINT0 then
    let q := transmit_packet p.1 0
    IsrResult.normal q.1 (p.2 ++ q.2)
  else if curr_vector = USBVECINT_OUTPUT_ENDPOINT0 then
    let q := receive_packet p.1 0
    IsrResult.normal q.1 (p.2 ++ q.2)
  else
    IsrResult.halted p.1 p.2

/-! Concrete states used to exercise the driver on the spec's scenarios. -/

/-- All-zero hardware register file. -/
def zeroHw : Hw :=
  { USBOEPIE := 0, USBIEPIE := 0, USBIE := 0, USBPWRCTL := 0, USBCTL := 0,
    USBOEPCNF_0 := 0, USBIEPCNF_0 := 0, USBOEPCNT_0 := 0, USBIEPCNT_0 := 0,
    USBIEPIFG := 0, USBIFG := 0, USBKEYPID := 0, GIE := true,
    ep0in_buf := fun _ => 0, setup_buf := fun _ => 0 }

/-- Empty transfer slot. -/
def emptyXfer : xfer_ctl_t :=
  { buffer := fun _ => 0, total_len := 0, queued_len := 0, max_size := 0,
    short_packet := false, zlp_sent := false }

/-- A quiescent driver state: zero registers and mirrors, empty table. -/
def initState : DcdState :=
  { hw := zeroHw, usboepie_mirror := 0, usbiepie_mirror := 0,
    usbie_mirror := 0, usbpwrctl_mirror := 0, in_isr := false,
    xfer_status := fun _ _ => emptyXfer, setup_packet := fun _ => 0 }

/-- A 20-byte application buffer: byte i holds i. -/
def testBuf : Nat → Nat := fun i => i % 256

/-- State after a bus reset (endpoint 0 max_size = 8 in both directions). -/
def sReset : DcdState := bus_reset initState

/-- State after queueing a 20-byte IN transfer on endpoint 0
(ep_addr 0x80), the spec's L = 20, M = 8 scenario. -/
def sQueued : DcdState := (dcd_edpt_xfer sReset 0x80 testBuf 20).1

/-- State after the first IN-interrupt packet-transmission step. -/
def sT1 : DcdState := (transmit_packet sQueued 0).1

/-- State after the second packet-transmission step. -/
def sT2 : DcdState := (transmit_packet sT1 0).1

/-- State after the third packet-transmission step. -/
def sT3 : DcdState := (transmit_packet sT2 0).1

/-- A driver state whose endpoint-0 IN slot has a finished non-ZLP
transfer: total_len = queued_len = 5. -/
def sDone : DcdState :=
  { initState with
    xfer_status := setXfer initState.xfer_status 0 true
      { emptyXfer with total_len := 5, queued_len := 5, max_size := 8 } }

/-- A driver state with distinctive values in the four interrupt-enable
registers, used to exercise the disable/enable round trip. -/
def sPwr : DcdState :=
  { initState with
    hw := { zeroHw with
      USBOEPIE := 3, USBIEPIE := 5, USBIE := 7, USBPWRCTL := 0x6A5 } }

/-! Theorems settling the claims. -/

/-- Helper: clearing a 16-bit mask and or-ing back the masked-out bits
restores the original 16-bit value. -/
theorem land_mask_restore (P M : Nat) (hP : P < 65536) (hM : M < 65536) :
    (P &&& (65535 ^^^ M)) ||| (P &&& M) = P := by
  apply Nat.eq_of_testBit_eq
  intro i
  simp only [Nat.testBit_lor, Nat.testBit_land, Nat.testBit_xor]
  rcases Nat.lt_or_ge i 16 with hi | hi
  · have h1 : Nat.testBit 65535 i = true := by
      have h2 : (65535 : Nat) = 2 ^ 16 - 1 := by norm_num
      rw [h2, Nat.testBit_two_pow_sub_one]
      simpa using hi
    rw [h1]
    cases Nat.testBit P i <;> cases Nat.testBit M i <;> rfl
  · have hpow : (65536 : Nat) ≤ 2 ^ i := by
      calc (65536 : Nat) = 2 ^ 16 := by norm_num
        _ ≤ 2 ^ i := Nat.pow_le_pow_right (by norm_num) hi
    have hP2 : Nat.testBit P i = false := Nat.testBit_lt_two_pow (lt_of_lt_of_le hP hpow)
    have hM2 : Nat.testBit M i = false := Nat.testBit_lt_two_pow (lt_of_lt_of_le hM hpow)
    have h3 : Nat.testBit 65535 i = false :=
      Nat.testBit_lt_two_pow (lt_of_lt_of_le (by norm_num) hpow)
    rw [hP2, hM2, h3]
    rfl

/-- Claim C1: the spec says each non-completion packet step sends
`min(max_size, total_len - queued_len)` bytes and advances `queued_len`
by that amount.  The code (line 278) compares `max_size` with
`total_len` instead of with the remaining count, so at total_len = 20,
max_size = 8, queued_len = 16 it advances `queued_len` by 8 (to 24)
where the spec requires min(8, 4) = 4. -/
theorem transmit_packet_final_packet_size_bug :
    (sT2.xfer_status 0 true).total_len = 20 ∧
    (sT2.xfer_status 0 true).max_size = 8 ∧
    (sT2.xfer_status 0 true).queued_len = 16 ∧
    ((transmit_packet sT2 0).1.xfer_status 0 true).queued_len = 24 ∧
    min (sT2.xfer_status 0 true).max_size
      ((sT2.xfer_status 0 true).total_len - (sT2.xfer_status 0 true).queued_len) = 4 := by
  decide

/-- Claim C2: the spec's scenario L = 20, M = 8 expects packets of sizes
8, 8, 4 and then a completion event reporting 20 bytes.  On the code the
three packet steps advance `queued_len` by 8, 8, 8 (to 24), and even the
fourth invocation emits no completion event: packet sizes are 8, 8, 8
and the transfer never completes. -/
theorem transmit_packet_sequence_20_8_bug :
    (sQueued.xfer_status 0 true).total_len = 20 ∧
    (sQueued.xfer_status 0 true).max_size = 8 ∧
    (sQueued.xfer_status 0 true).queued_len = 0 ∧
    (transmit_packet sQueued 0).2 = [] ∧
    (sT1.xfer_status 0 true).queued_len = 8 ∧
    (transmit_packet sT1 0).2 = [] ∧
    (sT2.xfer_status 0 true).queued_len = 16 ∧
    (transmit_packet sT2 0).2 = [] ∧
    (sT3.xfer_status 0 true).queued_len = 24 ∧
    (transmit_packet sT3 0).2 = [] := by
  decide

/-- Claim C3: the spec's invariant `queued_len <= total_len` is violated
by the code: after the third packet-transmission step of a 20-byte
transfer with max_size 8, `queued_len` is 24 while `total_len` is 20. -/
theorem transfer_queued_len_invariant_violation :
    (sT3.xfer_status 0 true).total_len = 20 ∧
    (sT3.xfer_status 0 true).queued_len = 24 ∧
    (sT3.xfer_status 0 true).total_len < (sT3.xfer_status 0 true).queued_len := by
  decide

/-- Claim C4: `dcd_int_disable` immediately followed by
`dcd_int_enable` restores the four interrupt-enable registers
(output-endpoint, input-endpoint, general, power-control) to their exact
pre-disable values, for every starting 16-bit value of USBPWRCTL. -/
theorem int_disable_enable_roundtrip (s : DcdState) (hP : s.hw.USBPWRCTL < 65536) :
    (dcd_int_enable (dcd_int_disable s)).hw.USBOEPIE = s.hw.USBOEPIE ∧
    (dcd_int_enable (dcd_int_disable s)).hw.USBIEPIE = s.hw.USBIEPIE ∧
    (dcd_int_enable (dcd_int_disable s)).hw.USBIE = s.hw.USBIE ∧
    (dcd_int_enable (dcd_int_disable s)).hw.USBPWRCTL = s.hw.USBPWRCTL := by
  refine ⟨rfl, rfl, rfl, ?_⟩
  show clear16 s.hw.USBPWRCTL PWRCTL_IE_MASK ||| (s.hw.USBPWRCTL &&& PWRCTL_IE_MASK) =
    s.hw.USBPWRCTL
  exact land_mask_restore s.hw.USBPWRCTL PWRCTL_IE_MASK hP (by decide)

/-- Witness for C4: the round trip at a concrete state with
USBPWRCTL = 0x6A5 (a mix of IE-mask bits and unrelated bits). -/
theorem int_disable_enable_roundtrip_witness :
    (dcd_int_enable (dcd_int_disable sPwr)).hw.USBOEPIE = sPwr.hw.USBOEPIE ∧
    (dcd_int_enable (dcd_int_disable sPwr)).hw.USBIEPIE = sPwr.hw.USBIEPIE ∧
    (dcd_int_enable (dcd_int_disable sPwr)).hw.USBIE = sPwr.hw.USBIE ∧
    (dcd_int_enable (dcd_int_disable sPwr)).hw.USBPWRCTL = sPwr.hw.USBPWRCTL :=
  int_disable_enable_roundtrip sPwr (by decide)

/-- Claim C5: when the endpoint-0 packet-transmission step finds
(total_len nonzero and queued_len = total_len) or zlp_sent already true,
it emits exactly one transfer-complete event carrying the cumulative
queued_len with success status, and leaves the entire state (hardware
registers and buffers included) unchanged on that call. -/
theorem transmit_packet_completion_event (s : DcdState)
    (h : (¬(s.xfer_status 0 true).total_len = 0 ∧
          (s.xfer_status 0 true).total_len = (s.xfer_status 0 true).queued_len) ∨
         (s.xfer_status 0 true).zlp_sent = true) :
    transmit_packet s 0 =
      (s, [Event.xferComplete 0 0 ((s.xfer_status 0 true).queued_len)
            XFER_RESULT_SUCCESS]) := by
  simp only [transmit_packet, if_pos rfl, if_pos h]
  rfl

/-- Witness for C5: the completion branch at a concrete finished
transfer with total_len = queued_len = 5. -/
theorem transmit_packet_completion_event_witness :
    transmit_packet sDone 0 =
      (sDone, [Event.xferComplete 0 0 ((sDone.xfer_status 0 true).queued_len)
                XFER_RESULT_SUCCESS]) :=
  transmit_packet_completion_event sDone (Or.inl ⟨by decide, by decide⟩)

/-- Claim C6: for every vector value other than the four recognized ones
the ISR takes the default arm: it reaches the halted outcome with no
event beyond those of the SETUP-capture phase, and the `while(true);`
loop it enters completes for no iteration count. -/
theorem isr_unknown_vector_halts (s : DcdState) (v : Nat)
    (h1 : v ≠ USBVECINT_RSTR) (h2 : v ≠ USBVECINT_SETUP_PACKET_RECEIVED)
    (h3 : v ≠ USBVECINT_INPUT_ENDPOINT0) (h4 : v ≠ USBVECINT_OUTPUT_ENDPOINT0) :
    USB_UBM_ISR s v = IsrResult.halted (isrSetupPhase s).1 (isrSetupPhase s).2 ∧
    ∀ fuel, whileTrueLoop fuel = none := by
  constructor
  · simp only [USB_UBM_ISR, if_neg h1, if_neg h2, if_neg h3, if_neg h4]
  · intro fuel
    induction fuel with
    | zero => rfl
    | succ n ih => exact ih

/-- Witness for C6: vector value 99 is unrecognized and halts the ISR
from the quiescent state. -/
theorem isr_unknown_vector_halts_witness :
    USB_UBM_ISR initState 99 =
      IsrResult.halted (isrSetupPhase initState).1 (isrSetupPhase initState).2 ∧
    ∀ fuel, whileTrueLoop fuel = none :=
  isr_unknown_vector_halts initState 99 (by decide) (by decide) (by decide) (by decide)

/-- Claim C7: calling `dcd_int_enable` when `in_isr` is false leaves the
four hardware interrupt-enable registers and the four mirror values
unchanged. -/
theorem int_enable_without_disable_noop (s : DcdState) (h : s.in_isr = false) :
    (dcd_int_enable s).hw.USBOEPIE = s.hw.USBOEPIE ∧
    (dcd_int_enable s).hw.USBIEPIE = s.hw.USBIEPIE ∧
    (dcd_int_enable s).hw.USBIE = s.hw.USBIE ∧
    (dcd_int_enable s).hw.USBPWRCTL = s.hw.USBPWRCTL ∧
    (dcd_int_enable s).usboepie_mirror = s.usboepie_mirror ∧
    (dcd_int_enable s).usbiepie_mirror = s.usbiepie_mirror ∧
    (dcd_int_enable s).usbie_mirror = s.usbie_mirror ∧
    (dcd_int_enable s).usbpwrctl_mirror = s.usbpwrctl_mirror := by
  simp [dcd_int_enable, h]

/-- Witness for C7: `dcd_int_enable` from the quiescent state (whose
`in_isr` flag is false). -/
theorem int_enable_without_disable_noop_witness :
    (dcd_int_enable initState).hw.USBOEPIE = initState.hw.USBOEPIE ∧
    (dcd_int_enable initState).hw.USBIEPIE = initState.hw.USBIEPIE ∧
    (dcd_int_enable initState).hw.USBIE = initState.hw.USBIE ∧
    (dcd_int_enable initState).hw.USBPWRCTL = initState.hw.USBPWRCTL ∧
    (dcd_int_enable initState).usboepie_mirror = initState.usboepie_mirror ∧
    (dcd_int_enable initState).usbiepie_mirror = initState.usbiepie_mirror ∧
    (dcd_int_enable initState).usbie_mirror = initState.usbie_mirror ∧
    (dcd_int_enable initState).usbpwrctl_mirror = initState.usbpwrctl_mirror :=
  int_enable_without_disable_noop initState (by decide)

/-- Claim C9: `dcd_int_enable` is idempotent: applying it twice from any
state produces exactly the same state as applying it once. -/
theorem int_enable_idempotent (s : DcdState) :
    dcd_int_enable (dcd_int_enable s) = dcd_int_enable s := by
  by_cases h : s.in_isr <;> simp [dcd_int_enable, h]

/-- Claim C10: when the endpoint-0 packet-transmission step takes the
completion branch, the endpoint-0 IN transfer record is left entirely
unchanged by that call. -/
theorem transmit_packet_completion_xfer_frame (s : DcdState)
    (h : (¬(s.xfer_status 0 true).total_len = 0 ∧
          (s.xfer_status 0 true).total_len = (s.xfer_status 0 true).queued_len) ∨
         (s.xfer_status 0 true).zlp_sent = true) :
    ((transmit_packet s 0).1).xfer_status 0 true = s.xfer_status 0 true := by
  simp only [transmit_packet, if_pos rfl, if_pos h]
  rfl

/-- Witness for C10: the completion branch at the finished 5-byte
transfer leaves its record unchanged. -/
theorem transmit_packet_completion_xfer_frame_witness :
    ((transmit_packet sDone 0).1).xfer_status 0 true = sDone.xfer_status 0 true :=
  transmit_packet_completion_xfer_frame sDone (Or.inl ⟨by decide, by decide⟩)

end Msp430Dcd
